import Mathlib

/-!
Shallow embedding of the two zustand state-management modules of the
a0-ticvision repository (the TicStore and the SuggestionStore), together
with theorems settling the frozen claims about them.

Modelling conventions:
* JS `Date` values and `Date.now()` readings are milliseconds since the
  epoch, as `Nat`.
* A JS `Record<string, T>` object is an association list `List (String × T)`
  preserving insertion order; property assignment replaces in place or
  appends, `delete` removes.
* Each async store action becomes a pure function taking the current clock
  reading, the freshly generated uuids, the remote collaborator's outcome
  for each request it issues, and the pre-state; it returns the post-state
  together with its observable effects (whether a remote request was
  issued, which snapshots were persisted, whether it threw).
* JS truncating subtraction `a - b` compared with `< bound` agrees with
  `Nat` subtraction here for every case that matters: when `a < b` the JS
  difference is negative and the comparison is true, and `Nat` gives `0`,
  also true.
-/

/-- Outcome of one request to the remote collaborator. -/
inductive RemoteResult (α : Type) where
  | ok (value : α)
  | err
deriving Repr, DecidableEq

/-- JS object property read: first (and only) binding of the key. -/
def rget {κ α : Type} [DecidableEq κ] (k : κ) : List (κ × α) → Option α
  | [] => none
  | p :: rest => if p.1 = k then some p.2 else rget k rest

/-- JS object property assignment: replace the existing binding in place,
    or append a new one. -/
def rset {κ α : Type} [DecidableEq κ] (k : κ) (v : α) (m : List (κ × α)) :
    List (κ × α) :=
  if (rget k m).isSome then
    m.map (fun p => if p.1 = k then (k, v) else p)
  else
    m ++ [(k, v)]

/-- JS `delete obj[k]`. -/
def rdel {κ α : Type} [DecidableEq κ] (k : κ) (m : List (κ × α)) :
    List (κ × α) :=
  m.filter (fun p => decide (p.1 ≠ k))

/- Domain records, from src/app/types/global.ts. -/

/-- A tic log record (`TicLog` in global.ts); `timestamp` is a Date. -/
structure TicLog where
  id : String
  notes : String
  userId : String
  intensity : Nat
  ticTypeId : String
  timeOfDay : String
  timestamp : Nat
deriving Repr, DecidableEq

/-- A tic type record (`TicType` in global.ts). -/
structure TicType where
  id : String
  name : String
  category : String
  isCustom : Bool
  description : String
deriving Repr, DecidableEq

/-- A suggestion record (`Suggestion` in global.ts); `createdAt` is a Date. -/
structure Suggestion where
  id : String
  title : String
  source : String
  category : String
  createdAt : Nat
  ticTypeId : String
  description : String
  isAIGenerated : Bool
deriving Repr, DecidableEq

/-- A feedback record (`UserSuggestionFeedback` in global.ts);
    `lastUsedDate` is a Date. -/
structure UserSuggestionFeedback where
  id : String
  notes : String
  userId : String
  lastUsedDate : Nat
  suggestionId : String
  effectiveness : Nat
  isCurrentlyUsing : Bool
deriving Repr, DecidableEq

/- ===== TicStore (src/unnamed/part_000) ===== -/

/-- `Omit<TicLog, 'id' | 'timestamp'>`: the argument of `logTic`.
    It still carries a `userId` field (Omit only removes id/timestamp). -/
structure TicLogInput where
  notes : String
  userId : String
  intensity : Nat
  ticTypeId : String
  timeOfDay : String
deriving Repr, DecidableEq

/-- One entry of `cachedHistoryRanges`. -/
structure CachedRange where
  logs : List TicLog
  timestamp : Nat
deriving Repr, DecidableEq

/-- The `filterSettings` sub-object of the TicStore state. -/
structure FilterSettings where
  startDate : Nat
  endDate : Nat
  timeOfDay : List String
  intensityRange : Nat × Nat
deriving Repr, DecidableEq

/-- The TicStore state (`TicStoreState` in part_000).  The history cache is
    keyed in the source by the string `startISO ++ "-" ++ endISO`; since
    `toISOString` is injective and fixed-width, the pair of instants is an
    equivalent key. -/
structure TicStoreState where
  error : Option String
  ticLogs : List (String × TicLog)
  lastSync : Option Nat
  ticTypes : List (String × TicType)
  isLoading : Bool
  recentLogs : List TicLog
  pendingLogs : List TicLog
  selectedTicType : Option String
  filterSettings : FilterSettings
  cachedHistoryRanges : List ((Nat × Nat) × CachedRange)
deriving Repr, DecidableEq

/-- `CACHE_DURATION = 1000 * 60 * 30` (30 minutes, in ms). -/
def CACHE_DURATION : Nat := 1000 * 60 * 30

/-- The TicStore `initialState`; its filter dates are computed from the
    clock at module initialization time, passed here as `initNow`. -/
def initialTicState (initNow : Nat) : TicStoreState :=
  { error := none
    ticLogs := []
    lastSync := none
    ticTypes := []
    isLoading := false
    recentLogs := []
    pendingLogs := []
    selectedTicType := none
    filterSettings :=
      { startDate := initNow - 7 * 24 * 60 * 60 * 1000
        endDate := initNow
        timeOfDay := ["morning", "afternoon", "evening", "night"]
        intensityRange := (1, 10) }
    cachedHistoryRanges := [] }

/-- The record built by `logTic`:
    `{ id: tempId, userId, timestamp: new Date(), ...logData }`.
    The `...logData` spread comes last, so its `userId` field overrides the
    authenticated one. -/
def mkTicLog (tempId : String) (_authUid : String) (now : Nat)
    (d : TicLogInput) : TicLog :=
  { id := tempId
    userId := d.userId
    timestamp := now
    notes := d.notes
    intensity := d.intensity
    ticTypeId := d.ticTypeId
    timeOfDay := d.timeOfDay }

namespace TicStore

/-- `logTic` of part_000.  Arguments: the current `userId` of the
    RootStore, the generated client-local uuid, the clock, the input, the
    remote POST outcome, and the pre-state.  Returns the post-state and
    whether a remote request was issued. -/
def logTic (uid? : Option String) (tempId : String) (now : Nat)
    (logData : TicLogInput) (remote : RemoteResult TicLog)
    (s : TicStoreState) : TicStoreState × Bool :=
  match uid? with
  | none => ({ s with error := some "User not authenticated" }, false)
  | some uid =>
    let newLog := mkTicLog tempId uid now logData
    -- optimistic update
    let s1 := { s with
      ticLogs := rset tempId newLog s.ticLogs
      pendingLogs := s.pendingLogs ++ [newLog]
      recentLogs := (newLog :: s.recentLogs).take 10 }
    match remote with
    | .ok savedLog =>
      ({ s1 with
          ticLogs := rset savedLog.id savedLog (rdel tempId s1.ticLogs)
          pendingLogs := s1.pendingLogs.filter (fun l => decide (l.id ≠ tempId))
          recentLogs := s1.recentLogs.map
            (fun l => if l.id = tempId then savedLog else l) }, true)
    | .err =>
      ({ s1 with
          error := some "Failed to sync tic log"
          ticLogs := rdel tempId s1.ticLogs
          recentLogs := s1.recentLogs.filter (fun l => decide (l.id ≠ tempId)) },
        true)

/-- `syncTicLogs` of part_000.  Returns the post-state, whether a remote
    request was issued, and the durable snapshot written by
    `saveString(STORAGE_KEY, JSON.stringify(get()))` — the snapshot is the
    whole store state as it stands at the moment of the save (inside the
    still-open `isLoading` window). -/
def syncTicLogs (now : Nat) (remote : RemoteResult (List TicLog))
    (s : TicStoreState) : TicStoreState × Bool × Option TicStoreState :=
  let s1 := { s with isLoading := true }
  if s1.pendingLogs = [] then
    -- early return; the `finally` clears isLoading
    ({ s1 with isLoading := false }, false, none)
  else
    match remote with
    | .ok syncedLogs =>
      let s2 := { s1 with
        pendingLogs := []
        lastSync := some now
        ticLogs := syncedLogs.foldl (fun m l => rset l.id l m) s1.ticLogs }
      ({ s2 with isLoading := false }, true, some s2)
    | .err =>
      ({ s1 with error := some "Failed to sync tic logs", isLoading := false },
        true, none)

/-- `getTicHistory` of part_000.  Returns the post-state, the returned
    logs, and whether a remote request was issued. -/
def getTicHistory (now : Nat) (startDate endDate : Nat)
    (remote : RemoteResult (List TicLog)) (s : TicStoreState) :
    TicStoreState × List TicLog × Bool :=
  let cacheKey := (startDate, endDate)
  let hit : Option (List TicLog) :=
    match rget cacheKey s.cachedHistoryRanges with
    | some cached =>
      if now - cached.timestamp < CACHE_DURATION then some cached.logs else none
    | none => none
  match hit with
  | some logs => (s, logs, false)
  | none =>
    let s1 := { s with isLoading := true }
    match remote with
    | .ok logs =>
      ({ s1 with
          cachedHistoryRanges :=
            rset cacheKey { logs := logs, timestamp := now }
              s1.cachedHistoryRanges
          isLoading := false }, logs, true)
    | .err =>
      ({ s1 with
          error := some "Failed to fetch tic history"
          isLoading := false }, [], true)

/-- `Partial<Omit<TicLog, 'id'>>`: the `updates` argument of
    `updateTicLog`.  It is only serialized into the request body. -/
structure TicLogUpdates where
  notes : Option String
  userId : Option String
  intensity : Option Nat
  ticTypeId : Option String
  timeOfDay : Option String
  timestamp : Option Nat
deriving Repr, DecidableEq

/-- `updateTicLog` of part_000.  There is no local presence check: the
    remote PATCH is issued unconditionally.  Returns the post-state and
    whether a remote request was issued. -/
def updateTicLog (logId : String) (_updates : TicLogUpdates)
    (remote : RemoteResult TicLog) (s : TicStoreState) :
    TicStoreState × Bool :=
  let s1 := { s with isLoading := true }
  match remote with
  | .ok updatedLog =>
    ({ s1 with
        ticLogs := rset logId updatedLog s1.ticLogs
        recentLogs := s1.recentLogs.map
          (fun l => if l.id = logId then updatedLog else l)
        isLoading := false }, true)
  | .err =>
    ({ s1 with error := some "Failed to update tic log", isLoading := false },
      true)

end TicStore

/- ===== SuggestionStore (src/unnamed/part_001) ===== -/

/-- The `type` discriminant of a queued operation. -/
inductive OpType where
  | feedback
  | sync
deriving Repr, DecidableEq

/-- `QueuedOperation` of part_001; `data` is `any` in the source and in
    every push it holds a `UserSuggestionFeedback`. -/
structure QueuedOperation where
  id : String
  type : OpType
  data : UserSuggestionFeedback
  timestamp : Nat
deriving Repr, DecidableEq

/-- `Omit<UserSuggestionFeedback, 'id'>`: the argument of
    `provideFeedback`.  It still carries a `userId` field (Omit only
    removes the id). -/
structure FeedbackInput where
  notes : String
  userId : String
  lastUsedDate : Nat
  suggestionId : String
  effectiveness : Nat
  isCurrentlyUsing : Bool
deriving Repr, DecidableEq

/-- The SuggestionStore state (`SuggestionStoreState` in part_001). -/
structure SuggestionStoreState where
  error : Option String
  lastSync : Option Nat
  isLoading : Bool
  suggestions : List (String × Suggestion)
  userFeedback : List (String × UserSuggestionFeedback)
  suggestionsByTicType : List (String × List String)
  operationQueue : List QueuedOperation
  pendingFeedback : List (String × UserSuggestionFeedback)
  isSyncing : Bool
  lastAIGeneration : List (String × Nat)
deriving Repr, DecidableEq

/-- The SuggestionStore `initialState`. -/
def initialSuggestionState : SuggestionStoreState :=
  { error := none
    lastSync := none
    isLoading := false
    suggestions := []
    userFeedback := []
    suggestionsByTicType := []
    operationQueue := []
    pendingFeedback := []
    isSyncing := false
    lastAIGeneration := [] }

/-- The record built by `provideFeedback`:
    `{ ...feedback, id: feedbackId, userId }`.  The explicit `id` and
    `userId` come after the spread and override it. -/
def mkFeedback (feedbackId uid : String) (d : FeedbackInput) :
    UserSuggestionFeedback :=
  { id := feedbackId
    notes := d.notes
    userId := uid
    lastUsedDate := d.lastUsedDate
    suggestionId := d.suggestionId
    effectiveness := d.effectiveness
    isCurrentlyUsing := d.isCurrentlyUsing }

/-- The replay `get().provideFeedback(op.data)` passes the stored record
    (including its stale id, which the spread then overrides) where an
    `Omit<..., 'id'>` is expected. -/
def inputOfFeedback (f : UserSuggestionFeedback) : FeedbackInput :=
  { notes := f.notes
    userId := f.userId
    lastUsedDate := f.lastUsedDate
    suggestionId := f.suggestionId
    effectiveness := f.effectiveness
    isCurrentlyUsing := f.isCurrentlyUsing }

/-- The durable snapshot assembled by `persistState` in part_001: exactly
    the six selected fields. -/
structure SuggestionSnapshot where
  suggestions : List (String × Suggestion)
  userFeedback : List (String × UserSuggestionFeedback)
  suggestionsByTicType : List (String × List String)
  lastSync : Option Nat
  operationQueue : List QueuedOperation
  lastAIGeneration : List (String × Nat)
deriving Repr, DecidableEq

namespace SuggestionStore

/-- `persistState` of part_001. -/
def persistState (s : SuggestionStoreState) : SuggestionSnapshot :=
  { suggestions := s.suggestions
    userFeedback := s.userFeedback
    suggestionsByTicType := s.suggestionsByTicType
    lastSync := s.lastSync
    operationQueue := s.operationQueue
    lastAIGeneration := s.lastAIGeneration }

/-- Result of one `provideFeedback` call: the post-state, whether a remote
    request was issued, whether the call threw synchronously, and the
    snapshots it persisted. -/
structure PfResult where
  state : SuggestionStoreState
  remoteCalled : Bool
  thrown : Bool
  persists : List SuggestionSnapshot
deriving Repr, DecidableEq

/-- `provideFeedback` of part_001.  Arguments: the RootStore `userId`, the
    generated client-local feedback uuid, the uuid generated for a queued
    operation on failure, the clock, the input, whether the remote POST
    succeeded (`response.ok`; the body is not used), and the pre-state. -/
def provideFeedback (uid? : Option String) (feedbackId queueOpId : String)
    (now : Nat) (feedback : FeedbackInput) (remoteOk : Bool)
    (s : SuggestionStoreState) : PfResult :=
  match uid? with
  | none => { state := s, remoteCalled := false, thrown := true, persists := [] }
  | some uid =>
    let newFeedback := mkFeedback feedbackId uid feedback
    -- optimistic update
    let s1 := { s with
      pendingFeedback := rset feedbackId newFeedback s.pendingFeedback
      userFeedback := rset feedbackId newFeedback s.userFeedback }
    if remoteOk then
      let s2 := { s1 with
        pendingFeedback := rdel feedbackId s1.pendingFeedback }
      { state := s2, remoteCalled := true, thrown := false
        persists := [persistState s2] }
    else
      { state := { s1 with
          error := some "Failed to save feedback"
          userFeedback := rdel feedbackId s1.userFeedback
          operationQueue := s1.operationQueue ++
            [{ id := queueOpId, type := OpType.feedback, data := newFeedback,
               timestamp := now }] }
        remoteCalled := true, thrown := false, persists := [] }

/-- The fresh uuids and the remote outcome consumed by the replay of one
    queued feedback operation during `syncUserFeedback`. -/
structure ReplayStep where
  feedbackId : String
  queueOpId : String
  remoteOk : Bool
deriving Repr, DecidableEq

/-- Accumulated outcome of the replay loop of `syncUserFeedback`. -/
structure ReplayOutcome where
  state : SuggestionStoreState
  persists : List SuggestionSnapshot
  thrown : Bool
deriving Repr, DecidableEq

/-- The `for (const op of operations)` loop of `syncUserFeedback`: each
    operation of type `feedback` is replayed through
    `provideFeedback(op.data)` (consuming the next pair of fresh uuids and
    the next remote outcome); a throw aborts the loop. -/
def runReplays (uid? : Option String) (steps : Nat → ReplayStep) (now : Nat) :
    Nat → List QueuedOperation → SuggestionStoreState → ReplayOutcome
  | _, [], s => { state := s, persists := [], thrown := false }
  | i, op :: rest, s =>
    if op.type = OpType.feedback then
      let st := steps i
      let r := provideFeedback uid? st.feedbackId st.queueOpId now
        (inputOfFeedback op.data) st.remoteOk s
      if r.thrown then
        { state := r.state, persists := r.persists, thrown := true }
      else
        let rr := runReplays uid? steps now (i + 1) rest r.state
        { state := rr.state, persists := r.persists ++ rr.persists
          thrown := rr.thrown }
    else
      runReplays uid? steps now i rest s

/-- Result of `syncUserFeedback`: post-state and persisted snapshots. -/
structure SyncResult where
  state : SuggestionStoreState
  persists : List SuggestionSnapshot
deriving Repr, DecidableEq

/-- `syncUserFeedback` of part_001.  The queue is snapshotted (as raw
    objects) before the loop; afterwards
    `state.operationQueue.filter(op => !operations.includes(op))` runs
    inside the immer producer, where each `op` read from the draft array
    is a draft proxy and `includes` compares with JS reference identity
    (`===`) — a proxy is never identical to its raw base object, so the
    test is true for every element and the filter removes nothing from
    the queue.  `lastSync` is stamped and the draining flag released.  A
    throw inside the loop is caught: it sets the error and releases the
    flag without filtering or stamping. -/
def syncUserFeedback (uid? : Option String) (steps : Nat → ReplayStep)
    (now : Nat) (s : SuggestionStoreState) : SyncResult :=
  if s.isSyncing then { state := s, persists := [] }
  else
    let operations := s.operationQueue
    let s1 := { s with isSyncing := true, error := none }
    let r := runReplays uid? steps now 0 operations s1
    if r.thrown then
      { state := { r.state with error := some "Sync failed", isSyncing := false }
        persists := r.persists }
    else
      -- `!operations.includes(draftOp)` evaluates to `!false = true` for
      -- every element: the filter keeps the whole queue.
      let s3 := { r.state with
        operationQueue := r.state.operationQueue.filter (fun _ => true)
        lastSync := some now
        isSyncing := false }
      { state := s3, persists := r.persists ++ [persistState s3] }

/-- Result of `generatePersonalizedSuggestions`: the post-state, whether
    the cross-store history read happened, whether the remote generation
    request was issued, and the snapshots persisted. -/
structure GenResult where
  state : SuggestionStoreState
  historyCalled : Bool
  genCalled : Bool
  persists : List SuggestionSnapshot
deriving Repr, DecidableEq

/-- `generatePersonalizedSuggestions` of part_001.  `ticLogs` is the
    result of the cross-store `getTicHistory` read; it is only serialized
    into the generation request body. -/
def generatePersonalizedSuggestions (now : Nat) (ticTypeId : String)
    (_ticLogs : List TicLog) (remote : RemoteResult (List Suggestion))
    (s : SuggestionStoreState) : GenResult :=
  let cooldown : Bool :=
    match rget ticTypeId s.lastAIGeneration with
    | some lastGeneration => decide (now - lastGeneration < 3600000)
    | none => false
  if cooldown then
    -- prevent generating too frequently: silent early return
    { state := s, historyCalled := false, genCalled := false, persists := [] }
  else
    let s1 := { s with isLoading := true, error := none }
    match remote with
    | .ok newSuggestions =>
      let s2 := { s1 with
        suggestions := newSuggestions.foldl
          (fun m sg => rset sg.id sg m) s1.suggestions
        suggestionsByTicType := rset ticTypeId
          ((rget ticTypeId s1.suggestionsByTicType).getD [] ++
            newSuggestions.map (fun sg => sg.id))
          s1.suggestionsByTicType
        lastAIGeneration := rset ticTypeId now s1.lastAIGeneration
        isLoading := false }
      { state := s2, historyCalled := true, genCalled := true
        persists := [persistState s2] }
    | .err =>
      { state := { s1 with
          error := some "Failed to generate personalized suggestions"
          isLoading := false }
        historyCalled := true, genCalled := true, persists := [] }

end SuggestionStore

/- ===== Startup load of persisted snapshots (both stores) ===== -/

/-- A dynamically-typed JS value as it can appear in a date-typed slot of
    the loaded state: either a real `Date` (an instant) or the raw string
    left behind by `JSON.parse`. -/
inductive JsVal where
  | vdate (ms : Nat)
  | vstr (s : String)
deriving Repr, DecidableEq

/-- `Date.prototype.getTime`: defined on a `Date`, a `TypeError` (modelled
    as `none`) on a string. -/
def jsGetTime : JsVal → Option Nat
  | JsVal.vdate ms => some ms
  | JsVal.vstr _ => none

def digitVal (c : Char) : Nat := c.toNat - 48

def natOfDigits (l : List Char) : Nat :=
  l.foldl (fun a c => a * 10 + digitVal c) 0

def isLeapYear (y : Nat) : Bool :=
  (y % 4 = 0 && y % 100 ≠ 0) || y % 400 = 0

/-- Days in the months strictly before month `m` (1-based). -/
def daysBeforeMonth (leap : Bool) (m : Nat) : Nat :=
  let lens : List Nat :=
    if leap then [31, 29, 31, 30, 31, 30, 31, 31, 30, 31, 30, 31]
    else [31, 28, 31, 30, 31, 30, 31, 31, 30, 31, 30, 31]
  ((lens.take (m - 1)).foldl (fun a b => a + b) 0)

/-- Days from 1970-01-01 to the civil date y-m-d (proleptic Gregorian,
    y ≥ 1970). -/
def daysSinceEpoch (y m d : Nat) : Nat :=
  (((List.range (y - 1970)).map
      (fun i => if isLeapYear (1970 + i) then 366 else 365)).foldl
    (fun a b => a + b) 0) + daysBeforeMonth (isLeapYear y) m + (d - 1)

/-- `new Date(s).getTime()` for a UTC ISO-8601 string
    `YYYY-MM-DDTHH:MM:SS(.mmm)?Z`, the format produced by
    `JSON.stringify` on a `Date` and accepted back by the `Date`
    constructor. -/
def jsDateParse (s : String) : Nat :=
  let cs := s.toList
  let y := natOfDigits (cs.take 4)
  let mo := natOfDigits ((cs.drop 5).take 2)
  let d := natOfDigits ((cs.drop 8).take 2)
  let h := natOfDigits ((cs.drop 11).take 2)
  let mi := natOfDigits ((cs.drop 14).take 2)
  let se := natOfDigits ((cs.drop 17).take 2)
  let ms := if cs.length ≥ 24 then natOfDigits ((cs.drop 20).take 3) else 0
  (((daysSinceEpoch y mo d * 24 + h) * 60 + mi) * 60 + se) * 1000 + ms

/-- What `loadString` + `JSON.parse` produced: the key was absent, the
    stored string failed to parse (the `catch` path), or it parsed. -/
inductive LoadResult (α : Type) where
  | missing
  | malformed
  | ok (value : α)
deriving Repr, DecidableEq

/-- The claim-relevant fields of `JSON.parse(stored)` for the TicStore
    snapshot: after parsing, every date-typed slot holds its serialized
    string, and absent fields are `none`.  The remaining parsed fields are
    spread into the state unchanged and are not modelled. -/
structure ParsedTicSnapshot where
  lastSync : Option String
  filterStartDate : Option String
  filterEndDate : Option String
  pendingLogs : Option (List JsVal)
deriving Repr, DecidableEq

/-- The claim-relevant fields of the TicStore state right after module
    initialization merges `{...initialState, ...persistedState}`. -/
structure LoadedTicState where
  lastSync : Option JsVal
  filterStartDate : JsVal
  filterEndDate : JsVal
  pendingLogs : List JsVal
deriving Repr, DecidableEq

namespace TicStore

/-- `loadPersistedState` of part_000 followed by the
    `{...initialState, ...persistedState}` merge: a missing or malformed
    snapshot degrades to the initial state; a parsed one has `lastSync`
    revived through `new Date(...)` when non-null, and the filter dates
    revived with a fallback to the initial `Date` objects (built from the
    module-initialization clock `initNow`). -/
def loadPersistedState (initNow : Nat) :
    LoadResult ParsedTicSnapshot → LoadedTicState
  | LoadResult.missing =>
    { lastSync := none
      filterStartDate := JsVal.vdate (initNow - 7 * 24 * 60 * 60 * 1000)
      filterEndDate := JsVal.vdate initNow
      pendingLogs := [] }
  | LoadResult.malformed =>
    { lastSync := none
      filterStartDate := JsVal.vdate (initNow - 7 * 24 * 60 * 60 * 1000)
      filterEndDate := JsVal.vdate initNow
      pendingLogs := [] }
  | LoadResult.ok p =>
    { lastSync := p.lastSync.map (fun str => JsVal.vdate (jsDateParse str))
      filterStartDate :=
        match p.filterStartDate with
        | some str => JsVal.vdate (jsDateParse str)
        | none => JsVal.vdate (initNow - 7 * 24 * 60 * 60 * 1000)
      filterEndDate :=
        match p.filterEndDate with
        | some str => JsVal.vdate (jsDateParse str)
        | none => JsVal.vdate initNow
      pendingLogs := p.pendingLogs.getD [] }

end TicStore

/-- The claim-relevant fields of `JSON.parse(stored)` for the
    SuggestionStore snapshot. -/
structure ParsedSuggestionSnapshot where
  lastSync : Option String
  operationQueue : Option (List JsVal)
  lastAIGeneration : Option (List (String × String))
deriving Repr, DecidableEq

/-- The claim-relevant fields of the SuggestionStore state right after the
    `{...initialState, ...persistedState}` merge. -/
structure LoadedSuggestionState where
  lastSync : Option JsVal
  operationQueue : List JsVal
  lastAIGeneration : List (String × JsVal)
deriving Repr, DecidableEq

namespace SuggestionStore

/-- `loadPersistedState` of part_001 followed by the
    `{...initialState, ...persistedState}` merge: `stored ? JSON.parse(stored) : {}`
    with no revival of any date-typed field — parsed date slots keep their
    raw strings. -/
def loadPersistedState :
    LoadResult ParsedSuggestionSnapshot → LoadedSuggestionState
  | LoadResult.missing =>
    { lastSync := none, operationQueue := [], lastAIGeneration := [] }
  | LoadResult.malformed =>
    { lastSync := none, operationQueue := [], lastAIGeneration := [] }
  | LoadResult.ok p =>
    { lastSync := p.lastSync.map JsVal.vstr
      operationQueue := p.operationQueue.getD []
      lastAIGeneration :=
        (p.lastAIGeneration.getD []).map (fun q => (q.1, JsVal.vstr q.2)) }

end SuggestionStore

/- ===== Helper lemmas about the association-list operations ===== -/

theorem rget_cons {κ α : Type} [DecidableEq κ] (k : κ) (p : κ × α)
    (m : List (κ × α)) :
    rget k (p :: m) = if p.1 = k then some p.2 else rget k m := rfl

/-- A key absent from an object is untouched by `delete`. -/
theorem rdel_of_rget_none {κ α : Type} [DecidableEq κ] {k : κ}
    {m : List (κ × α)} (h : rget k m = none) : rdel k m = m := by
  induction m with
  | nil => rfl
  | cons p rest ih =>
    rw [rget_cons] at h
    by_cases hk : p.1 = k
    · simp [hk] at h
    · rw [if_neg hk] at h
      have hd : decide (p.1 ≠ k) = true := by simp [hk]
      rw [rdel, List.filter_cons, hd]
      simp only [if_true]
      exact congrArg (p :: ·) (ih h)

/-- Assigning an absent key appends the binding. -/
theorem rset_of_rget_none {κ α : Type} [DecidableEq κ] {k : κ} (v : α)
    {m : List (κ × α)} (h : rget k m = none) : rset k v m = m ++ [(k, v)] := by
  simp [rset, h]

/-- Assigning then deleting a previously absent key restores the object. -/
theorem rdel_rset_of_rget_none {κ α : Type} [DecidableEq κ] {k : κ} (v : α)
    {m : List (κ × α)} (h : rget k m = none) : rdel k (rset k v m) = m := by
  rw [rset_of_rget_none v h, rdel, List.filter_append,
    ← rdel, rdel_of_rget_none h]
  simp [List.filter]

theorem rget_append_self {κ α : Type} [DecidableEq κ] {k : κ} (v : α)
    {m : List (κ × α)} (h : rget k m = none) :
    rget k (m ++ [(k, v)]) = some v := by
  induction m with
  | nil => simp [rget]
  | cons p rest ih =>
    rw [rget_cons] at h
    by_cases hk : p.1 = k
    · simp [hk] at h
    · rw [if_neg hk] at h
      rw [List.cons_append, rget_cons, if_neg hk]
      exact ih h

theorem rget_map_replace {κ α : Type} [DecidableEq κ] {k : κ} (v : α)
    {m : List (κ × α)} (h : (rget k m).isSome = true) :
    rget k (m.map (fun p => if p.1 = k then (k, v) else p)) = some v := by
  induction m with
  | nil => simp [rget] at h
  | cons p rest ih =>
    by_cases hk : p.1 = k
    · simp only [List.map_cons, if_pos hk]
      rw [rget_cons]
      simp
    · rw [rget_cons, if_neg hk] at h
      simp only [List.map_cons, if_neg hk]
      rw [rget_cons, if_neg hk]
      exact ih h

/-- Reading back a key just assigned. -/
theorem rget_rset_self {κ α : Type} [DecidableEq κ] (k : κ) (v : α)
    (m : List (κ × α)) : rget k (rset k v m) = some v := by
  rw [rset]
  cases h : (rget k m).isSome with
  | true =>
    simp only [if_true]
    exact rget_map_replace v h
  | false =>
    simp only [Bool.false_eq_true, if_false]
    exact rget_append_self v (Option.not_isSome_iff_eq_none.mp (by simp [h]))

/- ===== Drain lemmas ===== -/

namespace SuggestionStore

/-- The fresh operations enqueued by the failed replays of a drain over
    snapshot `ops` with authenticated user `uid`, starting at uuid-supply
    index `i`. -/
def drainFailureOps (uid : String) (steps : Nat → ReplayStep) (now : Nat) :
    Nat → List QueuedOperation → List QueuedOperation
  | _, [] => []
  | i, op :: rest =>
    if op.type = OpType.feedback then
      if (steps i).remoteOk then drainFailureOps uid steps now (i + 1) rest
      else
        { id := (steps i).queueOpId
          type := OpType.feedback
          data := mkFeedback (steps i).feedbackId uid (inputOfFeedback op.data)
          timestamp := now } :: drainFailureOps uid steps now (i + 1) rest
    else drainFailureOps uid steps now i rest

theorem provideFeedback_some_not_thrown (u fid qid : String) (now : Nat)
    (inp : FeedbackInput) (ok : Bool) (s : SuggestionStoreState) :
    (provideFeedback (some u) fid qid now inp ok s).thrown = false := by
  cases ok <;> simp [provideFeedback]

theorem provideFeedback_some_queue_ok (u fid qid : String) (now : Nat)
    (inp : FeedbackInput) (s : SuggestionStoreState) :
    (provideFeedback (some u) fid qid now inp true s).state.operationQueue =
      s.operationQueue := by
  simp [provideFeedback]

theorem provideFeedback_some_queue_err (u fid qid : String) (now : Nat)
    (inp : FeedbackInput) (s : SuggestionStoreState) :
    (provideFeedback (some u) fid qid now inp false s).state.operationQueue =
      s.operationQueue ++
        [{ id := qid, type := OpType.feedback, data := mkFeedback fid u inp,
           timestamp := now }] := by
  simp [provideFeedback]

/-- With an authenticated user the replay loop never throws, and it leaves
    the queue equal to the pre-loop queue extended by exactly the fresh
    operations enqueued by the failed replays. -/
theorem runReplays_authed (u : String) (steps : Nat → ReplayStep) (now : Nat)
    (ops : List QueuedOperation) :
    ∀ (i : Nat) (s : SuggestionStoreState),
      (runReplays (some u) steps now i ops s).thrown = false ∧
      (runReplays (some u) steps now i ops s).state.operationQueue =
        s.operationQueue ++ drainFailureOps u steps now i ops := by
  induction ops with
  | nil =>
    intro i s
    simp [runReplays, drainFailureOps]
  | cons op rest ih =>
    intro i s
    by_cases hop : op.type = OpType.feedback
    · cases hok : (steps i).remoteOk with
      | true =>
        simp only [runReplays, hop, if_true, hok, provideFeedback_some_not_thrown,
          Bool.false_eq_true, if_false, drainFailureOps]
        refine ⟨(ih (i + 1) _).1, ?_⟩
        rw [(ih (i + 1) _).2, provideFeedback_some_queue_ok]
      | false =>
        simp only [runReplays, hop, if_true, hok, provideFeedback_some_not_thrown,
          Bool.false_eq_true, if_false, drainFailureOps]
        refine ⟨(ih (i + 1) _).1, ?_⟩
        rw [(ih (i + 1) _).2, provideFeedback_some_queue_err,
          List.append_assoc, List.singleton_append]
    · simp only [runReplays, hop, if_false, drainFailureOps]
      exact ih i s

/-- When every remote replay succeeds, no failure operation is enqueued. -/
theorem drainFailureOps_all_ok (u : String) (steps : Nat → ReplayStep)
    (now : Nat) (hok : ∀ i, (steps i).remoteOk = true) :
    ∀ (i : Nat) (ops : List QueuedOperation),
      drainFailureOps u steps now i ops = [] := by
  intro i ops
  induction ops generalizing i with
  | nil => rfl
  | cons op rest ih =>
    by_cases hop : op.type = OpType.feedback
    · simp only [drainFailureOps, hop, if_true, hok i]
      exact ih (i + 1)
    · simp only [drainFailureOps, hop, if_false]
      exact ih i

end SuggestionStore

/- ===== Concrete fixtures for witnesses and counterexamples ===== -/

/-- A sample `logTic` input. -/
def sampleInput : TicLogInput :=
  { notes := "", userId := "u1", intensity := 5, ticTypeId := "t1",
    timeOfDay := "morning" }

/-- A sample server-returned log. -/
def sampleSavedLog : TicLog :=
  { id := "x1", notes := "", userId := "u1", intensity := 3, ticTypeId := "t1",
    timeOfDay := "morning", timestamp := 0 }

/-- An all-absent `updates` payload. -/
def emptyUpdates : TicStore.TicLogUpdates :=
  { notes := none, userId := none, intensity := none, ticTypeId := none,
    timeOfDay := none, timestamp := none }

/-- A sample feedback record as stored in the queue. -/
def sampleFeedbackRecord : UserSuggestionFeedback :=
  { id := "f1", notes := "", userId := "u1", lastUsedDate := 0,
    suggestionId := "s1", effectiveness := 3, isCurrentlyUsing := true }

/-- A sample `provideFeedback` input. -/
def sampleFeedbackInput : FeedbackInput :=
  { notes := "", userId := "u1", lastUsedDate := 0, suggestionId := "s1",
    effectiveness := 3, isCurrentlyUsing := true }

/-- A queued feedback operation. -/
def queuedOp1 : QueuedOperation :=
  { id := "q1", type := OpType.feedback, data := sampleFeedbackRecord,
    timestamp := 0 }

/-- A SuggestionStore state with one queued operation. -/
def queueFixture : SuggestionStoreState :=
  { initialSuggestionState with operationQueue := [queuedOp1] }

/-- A replay-step supply whose remote calls always fail. -/
def failStep : Nat → SuggestionStore.ReplayStep := fun _ =>
  { feedbackId := "f2", queueOpId := "q2", remoteOk := false }

/-- A replay-step supply whose remote calls always succeed. -/
def okStep : Nat → SuggestionStore.ReplayStep := fun _ =>
  { feedbackId := "f2", queueOpId := "q2", remoteOk := true }

/-- A TicStore state whose cache holds one entry for the range (0, 1). -/
def cachedFixture : TicStoreState :=
  { initialTicState 0 with
    cachedHistoryRanges := [((0, 1), { logs := [sampleSavedLog], timestamp := 0 })] }

/-- A TicStore state with one pending log and a stale error. -/
def pendingFixture : TicStoreState :=
  { initialTicState 0 with
    pendingLogs := [sampleSavedLog]
    error := some "previous failure" }

/-- Ten recent logs: a full RecentProjection. -/
def tenLogs : List TicLog :=
  ["a0", "a1", "a2", "a3", "a4", "a5", "a6", "a7", "a8", "a9"].map (fun i =>
    { id := i, notes := "", userId := "u1", intensity := 1,
      ticTypeId := "t1", timeOfDay := "morning", timestamp := 0 })

/-- A TicStore state whose RecentProjection is full. -/
def fullRecentFixture : TicStoreState :=
  { initialTicState 0 with recentLogs := tenLogs }

/- ===== C10 ===== -/

/-- C10: a `getTicHistory` call that hits a cache entry younger than 30
    minutes returns the cached payload and leaves the entire store state
    unchanged — `isLoading` is never toggled, no cache entry is written,
    the error field is untouched — and issues no remote call. -/
theorem c10_cache_hit_frame (now a b : Nat)
    (remote : RemoteResult (List TicLog)) (s : TicStoreState) (c : CachedRange)
    (hc : rget (a, b) s.cachedHistoryRanges = some c)
    (hfresh : now - c.timestamp < CACHE_DURATION) :
    TicStore.getTicHistory now a b remote s = (s, c.logs, false) := by
  simp [TicStore.getTicHistory, hc, hfresh]

/-- Witness for C10 at a concrete cached state. -/
theorem c10_witness :
    TicStore.getTicHistory 5 0 1 RemoteResult.err cachedFixture =
      (cachedFixture, [sampleSavedLog], false) :=
  c10_cache_hit_frame 5 0 1 RemoteResult.err cachedFixture
    { logs := [sampleSavedLog], timestamp := 0 } (by rfl) (by decide)

/- ===== C6 ===== -/

/-- C6: starting from a state with no cache entry for the range, a first
    successful read issues a remote call; a second read of the same range
    within 30 minutes of the entry being cached issues no remote call,
    returns the cached payload and changes nothing; a third read at least
    30 minutes after the entry was cached issues a second remote call. -/
theorem getTicHistory_hit (now a b : Nat) (remote : RemoteResult (List TicLog))
    (s : TicStoreState) (c : CachedRange)
    (hc : rget (a, b) s.cachedHistoryRanges = some c)
    (hfresh : now - c.timestamp < CACHE_DURATION) :
    TicStore.getTicHistory now a b remote s = (s, c.logs, false) := by
  simp [TicStore.getTicHistory, hc, hfresh]

theorem getTicHistory_stale_remote (now a b : Nat)
    (remote : RemoteResult (List TicLog)) (s : TicStoreState) (c : CachedRange)
    (hc : rget (a, b) s.cachedHistoryRanges = some c)
    (hstale : ¬ (now - c.timestamp < CACHE_DURATION)) :
    (TicStore.getTicHistory now a b remote s).2.2 = true := by
  unfold TicStore.getTicHistory
  simp only [hc, if_neg hstale]
  cases remote <;> rfl

theorem getTicHistory_miss_ok (now a b : Nat) (logs : List TicLog)
    (s : TicStoreState)
    (hmiss : rget (a, b) s.cachedHistoryRanges = none) :
    TicStore.getTicHistory now a b (RemoteResult.ok logs) s =
      ({ s with
          isLoading := false
          cachedHistoryRanges :=
            rset (a, b) { logs := logs, timestamp := now }
              s.cachedHistoryRanges },
        logs, true) := by
  unfold TicStore.getTicHistory
  simp only [hmiss]

/-- C6: starting from a state with no cache entry for the range, a first
    successful read issues a remote call; a second read of the same range
    within 30 minutes of the entry being cached issues no remote call,
    returns the cached payload and changes nothing; a third read at least
    30 minutes after the entry was cached issues a second remote call. -/
theorem c6_range_cache_ttl (a b t0 t1 t2 : Nat) (logs : List TicLog)
    (remote2 remote3 : RemoteResult (List TicLog)) (s : TicStoreState)
    (hmiss : rget (a, b) s.cachedHistoryRanges = none)
    (hfresh : t1 - t0 < CACHE_DURATION)
    (hstale : CACHE_DURATION ≤ t2 - t0) :
    (TicStore.getTicHistory t0 a b (RemoteResult.ok logs) s).2.2 = true ∧
    TicStore.getTicHistory t1 a b remote2
        (TicStore.getTicHistory t0 a b (RemoteResult.ok logs) s).1 =
      ((TicStore.getTicHistory t0 a b (RemoteResult.ok logs) s).1, logs, false) ∧
    (TicStore.getTicHistory t2 a b remote3
        (TicStore.getTicHistory t0 a b (RemoteResult.ok logs) s).1).2.2 =
      true := by
  have h1 := getTicHistory_miss_ok t0 a b logs s hmiss
  refine ⟨?_, ?_, ?_⟩
  · rw [h1]
  · rw [h1]
    exact getTicHistory_hit t1 a b remote2 _
      { logs := logs, timestamp := t0 }
      (rget_rset_self (a, b) ({ logs := logs, timestamp := t0 } : CachedRange) _)
      hfresh
  · rw [h1]
    exact getTicHistory_stale_remote t2 a b remote3 _
      { logs := logs, timestamp := t0 }
      (rget_rset_self (a, b) ({ logs := logs, timestamp := t0 } : CachedRange) _)
      (not_lt.mpr hstale)

/-- Witness for C6 at concrete times 0, 10, and exactly the TTL. -/
theorem c6_witness :
    (TicStore.getTicHistory 0 0 1 (RemoteResult.ok [sampleSavedLog])
        (initialTicState 0)).2.2 = true ∧
    TicStore.getTicHistory 10 0 1 RemoteResult.err
        (TicStore.getTicHistory 0 0 1 (RemoteResult.ok [sampleSavedLog])
          (initialTicState 0)).1 =
      ((TicStore.getTicHistory 0 0 1 (RemoteResult.ok [sampleSavedLog])
          (initialTicState 0)).1, [sampleSavedLog], false) ∧
    (TicStore.getTicHistory 1800000 0 1 RemoteResult.err
        (TicStore.getTicHistory 0 0 1 (RemoteResult.ok [sampleSavedLog])
          (initialTicState 0)).1).2.2 = true :=
  c6_range_cache_ttl 0 1 0 10 1800000 [sampleSavedLog] RemoteResult.err
    RemoteResult.err (initialTicState 0) (by rfl) (by decide) (by decide)

/- ===== C4 ===== -/

/-- C4 counterexample: an unauthenticated `logTic` call mutates the store
    — it sets the store-level error from `none` to a message — so "causes
    no state change in the store" is false on the TicStore create path. -/
theorem c4_counterexample :
    (TicStore.logTic none "tmp1" 0 sampleInput RemoteResult.err
        (initialTicState 0)).1.error = some "User not authenticated" ∧
    (initialTicState 0).error = none :=
  ⟨rfl, rfl⟩

/-- C4 amended: with no owning identity neither create path issues a
    remote call or performs an optimistic insert; `provideFeedback` throws
    synchronously and changes nothing, while `logTic` returns normally and
    its sole state change is setting the store-level error message. -/
theorem c4_unauthenticated_amended (tempId : String) (now : Nat)
    (inp : TicLogInput) (remote : RemoteResult TicLog) (s : TicStoreState)
    (fid qid : String) (now2 : Nat) (finp : FeedbackInput) (ok : Bool)
    (s2 : SuggestionStoreState) :
    TicStore.logTic none tempId now inp remote s =
      ({ s with error := some "User not authenticated" }, false) ∧
    SuggestionStore.provideFeedback none fid qid now2 finp ok s2 =
      { state := s2, remoteCalled := false, thrown := true, persists := [] } :=
  ⟨rfl, rfl⟩

/- ===== C2 ===== -/

/-- C2 counterexample: with "x1" absent from the primary mapping,
    `updateTicLog` still issues the remote request and, when the remote
    succeeds, mutates the store — there is no local NotFound short-circuit. -/
theorem c2_counterexample :
    rget "x1" (initialTicState 0).ticLogs = none ∧
    (TicStore.updateTicLog "x1" emptyUpdates (RemoteResult.ok sampleSavedLog)
        (initialTicState 0)).2 = true ∧
    (TicStore.updateTicLog "x1" emptyUpdates (RemoteResult.ok sampleSavedLog)
        (initialTicState 0)).1.ticLogs = [("x1", sampleSavedLog)] :=
  ⟨rfl, rfl, rfl⟩

/-- C2 amended: `updateTicLog` performs no local presence check and never
    fails with NotFound: for any id it issues the remote request
    unconditionally; on success with an absent id the server record is
    inserted under that id (and a RecentProjection free of the id is
    untouched); on failure only the error and loading flags change. -/
theorem c2_update_no_local_check (logId : String)
    (upd : TicStore.TicLogUpdates) (remote : RemoteResult TicLog) (u : TicLog)
    (s : TicStoreState)
    (habs : rget logId s.ticLogs = none)
    (hrec : ∀ l ∈ s.recentLogs, l.id ≠ logId) :
    (TicStore.updateTicLog logId upd remote s).2 = true ∧
    (TicStore.updateTicLog logId upd (RemoteResult.ok u) s).1.ticLogs =
      s.ticLogs ++ [(logId, u)] ∧
    (TicStore.updateTicLog logId upd (RemoteResult.ok u) s).1.recentLogs =
      s.recentLogs ∧
    (TicStore.updateTicLog logId upd RemoteResult.err s).1 =
      { s with
        error := some "Failed to update tic log"
        isLoading := false } := by
  refine ⟨?_, ?_, ?_, rfl⟩
  · cases remote <;> rfl
  · show rset logId u s.ticLogs = s.ticLogs ++ [(logId, u)]
    exact rset_of_rget_none u habs
  · show s.recentLogs.map (fun l => if l.id = logId then u else l) = s.recentLogs
    have : s.recentLogs.map (fun l => if l.id = logId then u else l) =
        s.recentLogs.map id :=
      List.map_congr_left (fun l hl => by rw [if_neg (hrec l hl)]; rfl)
    rw [this, List.map_id]

/-- Witness for C2 at the empty initial store. -/
theorem c2_witness :
    (TicStore.updateTicLog "x1" emptyUpdates (RemoteResult.ok sampleSavedLog)
        (initialTicState 0)).2 = true ∧
    (TicStore.updateTicLog "x1" emptyUpdates (RemoteResult.ok sampleSavedLog)
        (initialTicState 0)).1.ticLogs =
      (initialTicState 0).ticLogs ++ [("x1", sampleSavedLog)] ∧
    (TicStore.updateTicLog "x1" emptyUpdates (RemoteResult.ok sampleSavedLog)
        (initialTicState 0)).1.recentLogs = (initialTicState 0).recentLogs ∧
    (TicStore.updateTicLog "x1" emptyUpdates RemoteResult.err
        (initialTicState 0)).1 =
      { initialTicState 0 with
        error := some "Failed to update tic log"
        isLoading := false } :=
  c2_update_no_local_check "x1" emptyUpdates (RemoteResult.ok sampleSavedLog)
    sampleSavedLog (initialTicState 0) (by rfl) (by simp [initialTicState])

/- ===== Sync lemmas shared by C8, C5, C3 ===== -/

theorem syncTicLogs_ok_nonempty (now : Nat) (logs : List TicLog)
    (s : TicStoreState) (hne : s.pendingLogs ≠ []) :
    TicStore.syncTicLogs now (RemoteResult.ok logs) s =
      ({ s with
          pendingLogs := []
          lastSync := some now
          ticLogs := logs.foldl (fun m l => rset l.id l m) s.ticLogs
          isLoading := false }, true,
        some { s with
          pendingLogs := []
          lastSync := some now
          ticLogs := logs.foldl (fun m l => rset l.id l m) s.ticLogs
          isLoading := true }) := by
  unfold TicStore.syncTicLogs
  dsimp only
  rw [if_neg hne]

namespace SuggestionStore

/-- `syncUserFeedback` with an authenticated user never hits the catch:
    its post-state carries the post-replay queue (the drain removes
    nothing, so it is the starting queue plus the failure-enqueued
    operations), the drain timestamp and a released draining flag. -/
theorem syncUserFeedback_authed (u : String) (steps : Nat → ReplayStep)
    (now : Nat) (s : SuggestionStoreState) (hsync : s.isSyncing = false) :
    (syncUserFeedback (some u) steps now s).state.operationQueue =
      s.operationQueue ++ drainFailureOps u steps now 0 s.operationQueue ∧
    (syncUserFeedback (some u) steps now s).state.lastSync = some now ∧
    (syncUserFeedback (some u) steps now s).state.isSyncing = false := by
  have hr := runReplays_authed u steps now s.operationQueue 0
    { s with isSyncing := true, error := none }
  unfold syncUserFeedback
  simp only [hsync, Bool.false_eq_true, if_false, hr.1, hr.2]
  simp

end SuggestionStore

/- ===== C8 ===== -/

/-- C8 counterexample, both halves of the claim fail.  Draining
    `syncTicLogs` from an empty starting queue with an always-succeeding
    remote returns early and never stamps `lastSync`, so no time ≥ the
    drain start is recorded; and draining `syncUserFeedback` from a
    one-operation queue with an always-succeeding remote does not empty
    the queue — the immer-draft filter removes nothing, so the queue
    still holds the snapshotted operation. -/
theorem c8_counterexample :
    ((initialTicState 0).pendingLogs = [] ∧
      (TicStore.syncTicLogs 100 (RemoteResult.ok [])
        (initialTicState 0)).1.lastSync = none) ∧
    ((SuggestionStore.syncUserFeedback (some "u1") okStep 100
        queueFixture).state.operationQueue = [queuedOp1] ∧
      (SuggestionStore.syncUserFeedback (some "u1") okStep 100
        queueFixture).state.operationQueue ≠ []) :=
  ⟨⟨rfl, rfl⟩, rfl, by decide⟩

/-- C8 amended: with an always-succeeding remote, `syncTicLogs` on a
    nonempty starting queue empties it and stamps `lastSync` with the
    drain time (≥ any start time ≤ it), while an empty starting queue
    returns early without stamping; `syncUserFeedback` (not already
    draining, authenticated) stamps `lastSync` but removes nothing from
    the queue — the immer-draft filter never matches — so with
    all-success replays (which enqueue nothing) the queue is left exactly
    as it started, empty only if it started empty. -/
theorem c8_drain_success_amended (now tStart : Nat) (logs : List TicLog)
    (s : TicStoreState) (u : String)
    (steps : Nat → SuggestionStore.ReplayStep) (s2 : SuggestionStoreState)
    (hne : s.pendingLogs ≠ [])
    (hts : tStart ≤ now)
    (hsync : s2.isSyncing = false)
    (hok : ∀ i, (steps i).remoteOk = true) :
    ((TicStore.syncTicLogs now (RemoteResult.ok logs) s).1.pendingLogs = [] ∧
      (TicStore.syncTicLogs now (RemoteResult.ok logs) s).1.lastSync =
        some now ∧
      ∃ t, (TicStore.syncTicLogs now (RemoteResult.ok logs) s).1.lastSync =
        some t ∧ tStart ≤ t) ∧
    ((SuggestionStore.syncUserFeedback (some u) steps now
        s2).state.operationQueue = s2.operationQueue ∧
      (SuggestionStore.syncUserFeedback (some u) steps now s2).state.lastSync =
        some now) := by
  constructor
  · rw [syncTicLogs_ok_nonempty now logs s hne]
    exact ⟨rfl, rfl, now, rfl, hts⟩
  · have hq := SuggestionStore.syncUserFeedback_authed u steps now s2 hsync
    refine ⟨?_, hq.2.1⟩
    rw [hq.1, SuggestionStore.drainFailureOps_all_ok u steps now hok 0,
      List.append_nil]

/-- Witness for C8: one queued log, one queued feedback operation,
    always-succeeding remote. -/
theorem c8_witness :
    ((TicStore.syncTicLogs 100 (RemoteResult.ok [sampleSavedLog])
        pendingFixture).1.pendingLogs = [] ∧
      (TicStore.syncTicLogs 100 (RemoteResult.ok [sampleSavedLog])
        pendingFixture).1.lastSync = some 100 ∧
      ∃ t, (TicStore.syncTicLogs 100 (RemoteResult.ok [sampleSavedLog])
        pendingFixture).1.lastSync = some t ∧ 40 ≤ t) ∧
    ((SuggestionStore.syncUserFeedback (some "u1") okStep 100
        queueFixture).state.operationQueue = queueFixture.operationQueue ∧
      (SuggestionStore.syncUserFeedback (some "u1") okStep 100
        queueFixture).state.lastSync = some 100) :=
  c8_drain_success_amended 100 40 [sampleSavedLog] pendingFixture "u1" okStep
    queueFixture (by decide) (by decide) (by rfl) (fun _ => rfl)

/- ===== C5 ===== -/

/-- C5 counterexample: the snapshot persisted by a fully successful
    `syncTicLogs` run is the whole serialized state: it carries
    `isLoading = true` (the save happens inside the loading window) and
    the stale store error — transient loading state in the durable
    snapshot. -/
theorem c5_counterexample :
    ((TicStore.syncTicLogs 50 (RemoteResult.ok []) pendingFixture).2.2.map
        (fun snap => (snap.isLoading, snap.error))) =
      some (true, some "previous failure") :=
  rfl

/-- C5 amended: the SuggestionStore snapshot really is the six selected
    fields — the transient fields (`pendingFeedback`, `isLoading`,
    `error`, `isSyncing`) never influence it; the TicStore's
    `syncTicLogs`, however, serializes its entire state, and the snapshot
    it writes on full success carries `isLoading = true` and the
    pre-existing error value. -/
theorem c5_persist_amended (s2 : SuggestionStoreState)
    (pf : List (String × UserSuggestionFeedback)) (b bs : Bool)
    (e : Option String) (now : Nat) (logs : List TicLog) (s : TicStoreState)
    (hne : s.pendingLogs ≠ []) :
    SuggestionStore.persistState
        { s2 with
          pendingFeedback := pf
          isLoading := b
          error := e
          isSyncing := bs } =
      SuggestionStore.persistState s2 ∧
    (TicStore.syncTicLogs now (RemoteResult.ok logs) s).2.2 =
      some { s with
        pendingLogs := []
        lastSync := some now
        ticLogs := logs.foldl (fun m l => rset l.id l m) s.ticLogs
        isLoading := true } := by
  refine ⟨rfl, ?_⟩
  rw [syncTicLogs_ok_nonempty now logs s hne]

/-- Witness for C5 at a concrete one-log queue. -/
theorem c5_witness :
    SuggestionStore.persistState
        { initialSuggestionState with
          pendingFeedback := [("f1", sampleFeedbackRecord)]
          isLoading := true
          error := some "e"
          isSyncing := true } =
      SuggestionStore.persistState initialSuggestionState ∧
    (TicStore.syncTicLogs 50 (RemoteResult.ok []) pendingFixture).2.2 =
      some { pendingFixture with
        pendingLogs := []
        lastSync := some 50
        ticLogs := ([] : List TicLog).foldl (fun m l => rset l.id l m)
          pendingFixture.ticLogs
        isLoading := true } :=
  c5_persist_amended initialSuggestionState [("f1", sampleFeedbackRecord)]
    true true (some "e") 50 [] pendingFixture (by decide)

/- ===== C1 ===== -/

/-- Rolling back a RecentProjection that was prepended to and truncated:
    the result is the first 9 entries of the original, not the original. -/
theorem take_filter_rollback {nl : TicLog} {l : List TicLog} {tid : String}
    (hnl : nl.id = tid) (h : ∀ x ∈ l, x.id ≠ tid) :
    ((nl :: l).take 10).filter (fun x => decide (x.id ≠ tid)) = l.take 9 := by
  rw [show (10 : Nat) = 9 + 1 from rfl, List.take_succ_cons, List.filter_cons]
  have hd : decide (nl.id ≠ tid) = false := by simp [hnl]
  rw [hd]
  simp only [Bool.false_eq_true, if_false]
  exact List.filter_eq_self.mpr
    (fun x hx => by simp [h x (List.take_subset 9 l hx)])

/-- C1 counterexample: a create that fails remotely does not leave the
    store as it was, and the queued entry does carry the client-local id.
    With a full (10-entry) RecentProjection the rollback drops to 9
    entries (the evicted 10th is lost); the TicStore queue entry is the
    optimistic log itself, with `id = "tmp1"`; and the SuggestionStore
    failure path also leaves the optimistic entry in `pendingFeedback`. -/
theorem c1_counterexample :
    ((TicStore.logTic (some "u1") "tmp1" 5 sampleInput RemoteResult.err
        fullRecentFixture).1.recentLogs.length = 9 ∧
      fullRecentFixture.recentLogs.length = 10) ∧
    (TicStore.logTic (some "u1") "tmp1" 5 sampleInput RemoteResult.err
        fullRecentFixture).1.pendingLogs =
      [mkTicLog "tmp1" "u1" 5 sampleInput] ∧
    (mkTicLog "tmp1" "u1" 5 sampleInput).id = "tmp1" ∧
    (SuggestionStore.provideFeedback (some "u1") "f1" "q1" 0
        sampleFeedbackInput false initialSuggestionState).state.pendingFeedback =
      [("f1", mkFeedback "f1" "u1" sampleFeedbackInput)] :=
  ⟨⟨rfl, rfl⟩, rfl, rfl, rfl⟩

/-- C1 amended: a create that fails remotely rolls the primary mapping
    back exactly; the RecentProjection is rolled back only up to
    truncation (its first 9 pre-call entries survive); exactly one new
    queue entry appears and it carries the original input stamped with the
    failed client-local id (TicStore: the optimistic pending log itself;
    SuggestionStore: a fresh queued operation whose payload holds the
    client-local feedback id, while `pendingFeedback` also retains the
    optimistic entry); the store error is set. -/
theorem c1_create_failure_amended (uid tempId : String) (now : Nat)
    (inp : TicLogInput) (s : TicStoreState)
    (habs : rget tempId s.ticLogs = none)
    (hrec : ∀ l ∈ s.recentLogs, l.id ≠ tempId)
    (uid2 fid qid : String) (now2 : Nat) (finp : FeedbackInput)
    (s2 : SuggestionStoreState)
    (habs2 : rget fid s2.userFeedback = none) :
    ((TicStore.logTic (some uid) tempId now inp RemoteResult.err s).1.ticLogs
        = s.ticLogs ∧
      (TicStore.logTic (some uid) tempId now inp RemoteResult.err
        s).1.recentLogs = s.recentLogs.take 9 ∧
      (TicStore.logTic (some uid) tempId now inp RemoteResult.err
        s).1.pendingLogs = s.pendingLogs ++ [mkTicLog tempId uid now inp] ∧
      (mkTicLog tempId uid now inp).id = tempId ∧
      (TicStore.logTic (some uid) tempId now inp RemoteResult.err s).1.error
        = some "Failed to sync tic log" ∧
      (TicStore.logTic (some uid) tempId now inp RemoteResult.err s).2 =
        true) ∧
    ((SuggestionStore.provideFeedback (some uid2) fid qid now2 finp false
        s2).state.userFeedback = s2.userFeedback ∧
      (SuggestionStore.provideFeedback (some uid2) fid qid now2 finp false
        s2).state.pendingFeedback =
        rset fid (mkFeedback fid uid2 finp) s2.pendingFeedback ∧
      (SuggestionStore.provideFeedback (some uid2) fid qid now2 finp false
        s2).state.operationQueue =
        s2.operationQueue ++
          [{ id := qid
             type := OpType.feedback
             data := mkFeedback fid uid2 finp
             timestamp := now2 }] ∧
      (SuggestionStore.provideFeedback (some uid2) fid qid now2 finp false
        s2).state.error = some "Failed to save feedback") := by
  refine ⟨⟨?_, ?_, rfl, rfl, rfl, rfl⟩, ?_, rfl, rfl, rfl⟩
  · show rdel tempId (rset tempId (mkTicLog tempId uid now inp) s.ticLogs) =
      s.ticLogs
    exact rdel_rset_of_rget_none _ habs
  · show ((mkTicLog tempId uid now inp :: s.recentLogs).take 10).filter
        (fun l => decide (l.id ≠ tempId)) = s.recentLogs.take 9
    exact take_filter_rollback rfl hrec
  · show rdel fid (rset fid (mkFeedback fid uid2 finp) s2.userFeedback) =
      s2.userFeedback
    exact rdel_rset_of_rget_none _ habs2

/-- Witness for C1 at the empty initial stores. -/
theorem c1_witness :
    ((TicStore.logTic (some "u1") "tmp1" 5 sampleInput RemoteResult.err
        (initialTicState 0)).1.ticLogs = (initialTicState 0).ticLogs ∧
      (TicStore.logTic (some "u1") "tmp1" 5 sampleInput RemoteResult.err
        (initialTicState 0)).1.recentLogs =
        (initialTicState 0).recentLogs.take 9 ∧
      (TicStore.logTic (some "u1") "tmp1" 5 sampleInput RemoteResult.err
        (initialTicState 0)).1.pendingLogs =
        (initialTicState 0).pendingLogs ++ [mkTicLog "tmp1" "u1" 5 sampleInput] ∧
      (mkTicLog "tmp1" "u1" 5 sampleInput).id = "tmp1" ∧
      (TicStore.logTic (some "u1") "tmp1" 5 sampleInput RemoteResult.err
        (initialTicState 0)).1.error = some "Failed to sync tic log" ∧
      (TicStore.logTic (some "u1") "tmp1" 5 sampleInput RemoteResult.err
        (initialTicState 0)).2 = true) ∧
    ((SuggestionStore.provideFeedback (some "u1") "f1" "q1" 0
        sampleFeedbackInput false initialSuggestionState).state.userFeedback =
        initialSuggestionState.userFeedback ∧
      (SuggestionStore.provideFeedback (some "u1") "f1" "q1" 0
        sampleFeedbackInput false initialSuggestionState).state.pendingFeedback =
        rset "f1" (mkFeedback "f1" "u1" sampleFeedbackInput)
          initialSuggestionState.pendingFeedback ∧
      (SuggestionStore.provideFeedback (some "u1") "f1" "q1" 0
        sampleFeedbackInput false initialSuggestionState).state.operationQueue =
        initialSuggestionState.operationQueue ++
          [{ id := "q1"
             type := OpType.feedback
             data := mkFeedback "f1" "u1" sampleFeedbackInput
             timestamp := 0 }] ∧
      (SuggestionStore.provideFeedback (some "u1") "f1" "q1" 0
        sampleFeedbackInput false initialSuggestionState).state.error =
        some "Failed to save feedback") :=
  c1_create_failure_amended "u1" "tmp1" 5 sampleInput (initialTicState 0)
    (by rfl) (by simp [initialTicState]) "u1" "f1" "q1" 0 sampleFeedbackInput
    initialSuggestionState (by rfl)

/- ===== C3 ===== -/

/-- C3 counterexample: a queued operation whose replay succeeds is not
    removed from the queue.  The filter inside the immer producer compares
    draft proxies against the raw snapshot with `===` and so removes
    nothing: after the drain the queue still holds the snapshotted
    operation, contradicting "exactly the snapshotted operations whose
    replay succeeds are removed".  (The two persisted snapshots — one from
    the successful replay, one final — show the replay ran and
    succeeded.) -/
theorem c3_counterexample :
    (SuggestionStore.syncUserFeedback (some "u1") okStep 7
        queueFixture).state.operationQueue = [queuedOp1] ∧
    queuedOp1 ∈ (SuggestionStore.syncUserFeedback (some "u1") okStep 7
        queueFixture).state.operationQueue ∧
    (SuggestionStore.syncUserFeedback (some "u1") okStep 7
        queueFixture).persists.length = 2 :=
  ⟨rfl, by decide, rfl⟩

/-- C3 amended: a drain removes nothing from the queue — inside the immer
    producer each element is a draft proxy, never reference-equal to the
    snapshotted raw operations, so the `!operations.includes(op)` filter
    keeps everything.  Snapshotted operations remain queued whether their
    replay succeeded or failed; each failed replay additionally enqueues
    one fresh operation (new op id, fresh client-local feedback id, drain
    timestamp) carrying the same payload fields; operations enqueued
    during the drain are likewise never removed.  After a drain with an
    authenticated user the queue is the starting queue followed by
    exactly these fresh failure operations. -/
theorem c3_drain_snapshot_amended (u : String)
    (steps : Nat → SuggestionStore.ReplayStep) (now : Nat)
    (s : SuggestionStoreState)
    (hsync : s.isSyncing = false) :
    (SuggestionStore.syncUserFeedback (some u) steps now
        s).state.operationQueue =
      s.operationQueue ++
        SuggestionStore.drainFailureOps u steps now 0 s.operationQueue :=
  (SuggestionStore.syncUserFeedback_authed u steps now s hsync).1

/-- Witness for C3 at a concrete one-operation queue with a failing
    remote: the snapshotted operation stays and the fresh failure
    operation is appended. -/
theorem c3_witness :
    (SuggestionStore.syncUserFeedback (some "u1") failStep 7
        queueFixture).state.operationQueue =
      queueFixture.operationQueue ++
        SuggestionStore.drainFailureOps "u1" failStep 7 0
          queueFixture.operationQueue :=
  c3_drain_snapshot_amended "u1" failStep 7 queueFixture (by rfl)

/- ===== C7 ===== -/

/-- C7: a generation call less than 1 hour after the last generation for
    the same subject is a silent no-op — the returned state is the input
    state, no error is set, neither the cross-store history read nor the
    remote generation call happens, nothing is persisted — so two calls
    within one hour perform the remote generation call exactly once. -/
theorem c7_generation_cooldown (tid : String) (t0 t1 : Nat)
    (hist1 hist2 : List TicLog) (suggs : List Suggestion)
    (remote2 : RemoteResult (List Suggestion)) (s : SuggestionStoreState)
    (hnone : rget tid s.lastAIGeneration = none)
    (hfresh : t1 - t0 < 3600000) :
    (SuggestionStore.generatePersonalizedSuggestions t0 tid hist1
        (RemoteResult.ok suggs) s).genCalled = true ∧
    SuggestionStore.generatePersonalizedSuggestions t1 tid hist2 remote2
        (SuggestionStore.generatePersonalizedSuggestions t0 tid hist1
          (RemoteResult.ok suggs) s).state =
      { state := (SuggestionStore.generatePersonalizedSuggestions t0 tid hist1
            (RemoteResult.ok suggs) s).state
        historyCalled := false
        genCalled := false
        persists := [] } := by
  have hg : rget tid (SuggestionStore.generatePersonalizedSuggestions t0 tid
      hist1 (RemoteResult.ok suggs) s).state.lastAIGeneration = some t0 := by
    unfold SuggestionStore.generatePersonalizedSuggestions
    simp only [hnone]
    exact rget_rset_self tid t0 _
  constructor
  · unfold SuggestionStore.generatePersonalizedSuggestions
    simp [hnone]
  · generalize hS : (SuggestionStore.generatePersonalizedSuggestions t0 tid
      hist1 (RemoteResult.ok suggs) s).state = S at hg
    unfold SuggestionStore.generatePersonalizedSuggestions
    simp only [hg, decide_eq_true hfresh, if_true]

/-- Witness for C7 at the empty initial store and times 0 and 10. -/
theorem c7_witness :
    (SuggestionStore.generatePersonalizedSuggestions 0 "t1" []
        (RemoteResult.ok []) initialSuggestionState).genCalled = true ∧
    SuggestionStore.generatePersonalizedSuggestions 10 "t1" []
        RemoteResult.err
        (SuggestionStore.generatePersonalizedSuggestions 0 "t1" []
          (RemoteResult.ok []) initialSuggestionState).state =
      { state := (SuggestionStore.generatePersonalizedSuggestions 0 "t1" []
            (RemoteResult.ok []) initialSuggestionState).state
        historyCalled := false
        genCalled := false
        persists := [] } :=
  c7_generation_cooldown "t1" 0 10 [] [] [] RemoteResult.err
    initialSuggestionState (by rfl) (by decide)

/- ===== C9 ===== -/

/-- C9: on startup load, missing and malformed snapshots degrade to the
    initial state in both stores, and the TicStore reconstructs the
    serialized `lastSync` "2024-01-01T00:00:00Z" into the equivalent
    instant with an empty queue — but the SuggestionStore leaves every
    date-typed field as the raw serialized string (its later `getTime`
    call on such a value is a TypeError), so the reconstruction the spec
    requires does not happen there. -/
theorem c9_load_divergence :
    (TicStore.loadPersistedState 0 (LoadResult.ok
        { lastSync := some "2024-01-01T00:00:00Z"
          filterStartDate := none
          filterEndDate := none
          pendingLogs := some [] })).lastSync =
      some (JsVal.vdate 1704067200000) ∧
    (TicStore.loadPersistedState 0 (LoadResult.ok
        { lastSync := some "2024-01-01T00:00:00Z"
          filterStartDate := none
          filterEndDate := none
          pendingLogs := some [] })).pendingLogs = [] ∧
    jsDateParse "2024-01-01T00:00:00Z" = 1704067200000 ∧
    TicStore.loadPersistedState 0 LoadResult.malformed =
      { lastSync := none
        filterStartDate := JsVal.vdate 0
        filterEndDate := JsVal.vdate 0
        pendingLogs := [] } ∧
    SuggestionStore.loadPersistedState (LoadResult.ok
        { lastSync := some "2024-01-01T00:00:00Z"
          operationQueue := some []
          lastAIGeneration := some [("t1", "2024-01-01T00:00:00Z")] }) =
      { lastSync := some (JsVal.vstr "2024-01-01T00:00:00Z")
        operationQueue := []
        lastAIGeneration := [("t1", JsVal.vstr "2024-01-01T00:00:00Z")] } ∧
    jsGetTime (JsVal.vstr "2024-01-01T00:00:00Z") = none ∧
    SuggestionStore.loadPersistedState LoadResult.missing =
      { lastSync := none, operationQueue := [], lastAIGeneration := [] } :=
  ⟨by decide, rfl, by decide, by decide, rfl, rfl, rfl⟩
